import Mathlib

/-!
Shallow embedding of `src/main.py` (feldges/data_extractor): the pydantic
data model, the schema validation performed on the external capability's
response, the financial-data rendering (`__ft__`), the clipboard export
(`format_for_excel_clipboard`), the snapshot store on `data/pkl`, and the
extraction job lifecycle (`/extract`, the threaded `extract_company_data`,
`extract_company_data_status`).

Python floats are modelled as rationals (no float arithmetic occurs in the
code: values are only stored, compared to `None`, and printed), pickle
(de)serialization as the identity on stored `Company` values, and the file
system directories `data/temp`, `data/pdf`, `data/pkl` as explicit lists in
a system state.
-/

/-- The `quality` enum of `ExtractedData`: `Literal["high", "medium", "low"]`. -/
inductive Quality where
  | high
  | medium
  | low
deriving DecidableEq

/-- The `type` enum of `FinancialMetrics`: `Literal["actual", "forecast"]`. -/
inductive PointType where
  | actual
  | forecast
deriving DecidableEq

/-- Python string of a `PointType` value. -/
def typeStr : PointType → String
  | .actual => "actual"
  | .forecast => "forecast"

/-- `FinancialMetrics`: year, four optional metric values, and the
actual/forecast tag.  `None` (undisclosed) is `Option.none`, distinct from 0. -/
structure FinancialMetrics where
  year : Int
  revenue : Option Rat
  ebitda : Option Rat
  margin : Option Rat
  debt : Option Rat
  type : PointType
deriving DecidableEq

/-- `FinancialData(ExtractedData)`: provenance pages, quality grade, the time
series of metric points in stored order, and the currency string. -/
structure FinancialData where
  pages : List Int
  quality : Quality
  data : List FinancialMetrics
  currency : String
deriving DecidableEq

/-- `Financials`: wrapper holding one `FinancialData`. -/
structure Financials where
  financial_data : FinancialData
deriving DecidableEq

/-- `CompanyName(ExtractedData)`: pages, quality, and the text value. -/
structure CompanyName where
  pages : List Int
  quality : Quality
  value : String
deriving DecidableEq

/-- `CompanyDescription(ExtractedData)`. -/
structure CompanyDescription where
  pages : List Int
  quality : Quality
  value : String
deriving DecidableEq

/-- `CompanyStrategy(ExtractedData)`. -/
structure CompanyStrategy where
  pages : List Int
  quality : Quality
  value : String
deriving DecidableEq

/-- `CompanyBusinessModel(ExtractedData)`. -/
structure CompanyBusinessModel where
  pages : List Int
  quality : Quality
  value : String
deriving DecidableEq

/-- `CompanyMarket(ExtractedData)`. -/
structure CompanyMarket where
  pages : List Int
  quality : Quality
  value : String
deriving DecidableEq

/-- `CompanyClients(ExtractedData)`. -/
structure CompanyClients where
  pages : List Int
  quality : Quality
  value : String
deriving DecidableEq

/-- `CompanyProducts(ExtractedData)`. -/
structure CompanyProducts where
  pages : List Int
  quality : Quality
  value : String
deriving DecidableEq

/-- `Employee(ExtractedData)`: pages and quality inherited, plus name, role,
description. -/
structure Employee where
  pages : List Int
  quality : Quality
  name : String
  role : String
  description : String
deriving DecidableEq

/-- `TopManagement`: the roster and its shared provenance pages. -/
structure TopManagement where
  employees : List Employee
  pages : List Int
deriving DecidableEq

/-- `CompanyBase`: the field set demanded of the external capability. -/
structure CompanyBase where
  name : CompanyName
  description : CompanyDescription
  strategy : CompanyStrategy
  business_model : CompanyBusinessModel
  market : CompanyMarket
  clients : CompanyClients
  products : CompanyProducts
  top_management : TopManagement
  financials : Financials
deriving DecidableEq

/-- `Company(CompanyBase)`: the aggregate with its identifier. -/
structure Company extends CompanyBase where
  id : String
deriving DecidableEq

/-- JSON-shaped value returned by the external capability; numbers are
modelled as rationals. -/
inductive Json where
  | null
  | num (q : Rat)
  | str (s : String)
  | arr (xs : List Json)
  | obj (fields : List (String × Json))

/-- Field lookup in a JSON object; `none` when absent or not an object. -/
def Json.get? : Json → String → Option Json
  | .obj fs, k => (fs.find? (fun p => p.1 == k)).map (·.2)
  | _, _ => none

/-- Validate an integer field (a JSON number with no fractional part). -/
def Json.asInt? : Json → Option Int
  | .num q => if q.den = 1 then some q.num else none
  | _ => none

/-- Validate a numeric field. -/
def Json.asNum? : Json → Option Rat
  | .num q => some q
  | _ => none

/-- Validate a string field. -/
def Json.asStr? : Json → Option String
  | .str s => some s
  | _ => none

/-- Validate the `quality` enum: anything outside {high, medium, low} fails. -/
def Json.asQuality? : Json → Option Quality
  | .str "high" => some Quality.high
  | .str "medium" => some Quality.medium
  | .str "low" => some Quality.low
  | _ => none

/-- Validate the `type` enum: anything outside {actual, forecast} fails. -/
def Json.asPointType? : Json → Option PointType
  | .str "actual" => some PointType.actual
  | .str "forecast" => some PointType.forecast
  | _ => none

/-- Validate a homogeneous JSON array elementwise. -/
def Json.asListOf? (f : Json → Option α) : Json → Option (List α)
  | .arr xs => xs.mapM f
  | _ => none

/-- Validate a required `List[int]` field. -/
def Json.intListField? (j : Json) (k : String) : Option (List Int) :=
  (j.get? k).bind (Json.asListOf? Json.asInt?)

/-- Validate an `Optional[float]` field: absent or null is `none`; a present
value must be numeric. -/
def Json.optNumField? (j : Json) (k : String) : Option (Option Rat) :=
  match j.get? k with
  | none => some none
  | some .null => some none
  | some v => v.asNum?.map some

/-- Validate a `FinancialMetrics` object. -/
def FinancialMetrics.parse? (j : Json) : Option FinancialMetrics := do
  let year ← (← j.get? "year").asInt?
  let revenue ← j.optNumField? "revenue"
  let ebitda ← j.optNumField? "ebitda"
  let margin ← j.optNumField? "margin"
  let debt ← j.optNumField? "debt"
  let t ← (← j.get? "type").asPointType?
  pure ⟨year, revenue, ebitda, margin, debt, t⟩

/-- Validate a `FinancialData` object. -/
def FinancialData.parse? (j : Json) : Option FinancialData := do
  let pages ← j.intListField? "pages"
  let quality ← (← j.get? "quality").asQuality?
  let data ← (← j.get? "data").asListOf? FinancialMetrics.parse?
  let currency ← (← j.get? "currency").asStr?
  pure ⟨pages, quality, data, currency⟩

/-- Validate a `Financials` object. -/
def Financials.parse? (j : Json) : Option Financials := do
  let fd ← FinancialData.parse? (← j.get? "financial_data")
  pure ⟨fd⟩

/-- Validate the shared `ExtractedData` part (pages and quality) together
with a required string `value`: the shape of the seven scalar fact models. -/
def parseScalarFact? (j : Json) : Option (List Int × Quality × String) := do
  let pages ← j.intListField? "pages"
  let quality ← (← j.get? "quality").asQuality?
  let value ← (← j.get? "value").asStr?
  pure ⟨pages, quality, value⟩

/-- Validate a `CompanyName` object. -/
def CompanyName.parse? (j : Json) : Option CompanyName :=
  (parseScalarFact? j).map fun t => ⟨t.1, t.2.1, t.2.2⟩

/-- Validate a `CompanyDescription` object. -/
def CompanyDescription.parse? (j : Json) : Option CompanyDescription :=
  (parseScalarFact? j).map fun t => ⟨t.1, t.2.1, t.2.2⟩

/-- Validate a `CompanyStrategy` object. -/
def CompanyStrategy.parse? (j : Json) : Option CompanyStrategy :=
  (parseScalarFact? j).map fun t => ⟨t.1, t.2.1, t.2.2⟩

/-- Validate a `CompanyBusinessModel` object. -/
def CompanyBusinessModel.parse? (j : Json) : Option CompanyBusinessModel :=
  (parseScalarFact? j).map fun t => ⟨t.1, t.2.1, t.2.2⟩

/-- Validate a `CompanyMarket` object. -/
def CompanyMarket.parse? (j : Json) : Option CompanyMarket :=
  (parseScalarFact? j).map fun t => ⟨t.1, t.2.1, t.2.2⟩

/-- Validate a `CompanyClients` object. -/
def CompanyClients.parse? (j : Json) : Option CompanyClients :=
  (parseScalarFact? j).map fun t => ⟨t.1, t.2.1, t.2.2⟩

/-- Validate a `CompanyProducts` object. -/
def CompanyProducts.parse? (j : Json) : Option CompanyProducts :=
  (parseScalarFact? j).map fun t => ⟨t.1, t.2.1, t.2.2⟩

/-- Validate an `Employee` object. -/
def Employee.parse? (j : Json) : Option Employee := do
  let pages ← j.intListField? "pages"
  let quality ← (← j.get? "quality").asQuality?
  let name ← (← j.get? "name").asStr?
  let role ← (← j.get? "role").asStr?
  let description ← (← j.get? "description").asStr?
  pure ⟨pages, quality, name, role, description⟩

/-- Validate a `TopManagement` object. -/
def TopManagement.parse? (j : Json) : Option TopManagement := do
  let employees ← (← j.get? "employees").asListOf? Employee.parse?
  let pages ← j.intListField? "pages"
  pure ⟨employees, pages⟩

/-- Validate a full `CompanyBase` response: every field is required; a
missing field, a wrong enum, or a non-numeric number fails the whole parse. -/
def CompanyBase.parse? (j : Json) : Option CompanyBase :=
  match (j.get? "name").bind CompanyName.parse?,
        (j.get? "description").bind CompanyDescription.parse?,
        (j.get? "strategy").bind CompanyStrategy.parse?,
        (j.get? "business_model").bind CompanyBusinessModel.parse?,
        (j.get? "market").bind CompanyMarket.parse?,
        (j.get? "clients").bind CompanyClients.parse?,
        (j.get? "products").bind CompanyProducts.parse?,
        (j.get? "top_management").bind TopManagement.parse?,
        (j.get? "financials").bind Financials.parse? with
  | some n, some de, some st, some bm, some ma, some cl, some pr, some tm,
    some fi => some ⟨n, de, st, bm, ma, cl, pr, tm, fi⟩
  | _, _, _, _, _, _, _, _, _ => none


/-- The sorted distinct year list of the rendered table:
`years = sorted(set(item.year for item in self.data))`. -/
def displayYears (data : List FinancialMetrics) : List Int :=
  List.insertionSort (· ≤ ·) (data.map (·.year)).dedup

/-- `d.type == "forecast"` for one metric point. -/
def isForecast (d : FinancialMetrics) : Bool :=
  typeStr d.type == "forecast"

/-- Whether a year is marked forecast in the table header:
`any(d.type == "forecast" and d.year == y for d in self.data)`. -/
def yearIsForecast (data : List FinancialMetrics) (y : Int) : Bool :=
  data.any fun d => isForecast d && d.year == y

/-- One year-header cell: `f"{y}" + ("E" if any(...) else "")`. -/
def yearHeader (data : List FinancialMetrics) (y : Int) : String :=
  toString y ++ (if yearIsForecast data y then "E" else "")

/-- String form of a Python float as produced by `str`.  The program only
ever prints metric values, so only the printed form matters; for the
integer-valued data exercised by the spec examples this matches `str`
exactly (`str(50.0) == "50.0"`). -/
def pyFloatStr (q : Rat) : String :=
  if q.den = 1 then toString q.num ++ ".0" else toString q

/-- The displayed value of one table cell before string conversion: the
first point in stored order whose year matches and whose metric is non-null,
as in `next((str(d.revenue) for d in self.data
if d.year == y and d.revenue is not None), "-")`. -/
def cellValue (data : List FinancialMetrics) (f : FinancialMetrics → Option Rat)
    (y : Int) : Option Rat :=
  (data.find? fun d => d.year == y && (f d).isSome).bind f

/-- One rendered metric cell of the display table (`"-"` when no point for
that year carries the metric). -/
def displayCellStr (data : List FinancialMetrics)
    (f : FinancialMetrics → Option Rat) (y : Int) : String :=
  match cellValue data f y with
  | some q => pyFloatStr q
  | none => "-"

/-- The year-indexed table produced by `__ft__(self: FinancialData)`:
header cells, one row of cells per metric, and the caption. -/
structure RenderedTable where
  header : List String
  revenueRow : List String
  ebitdaRow : List String
  marginRow : List String
  debtRow : List String
  caption : String
deriving DecidableEq

/-- `__ft__(self: FinancialData)` modulo HTML tags: the header, the four
metric rows over the sorted distinct years, and the currency caption. -/
def FinancialData.render (fd : FinancialData) : RenderedTable :=
  let years := displayYears fd.data
  { header := years.map (yearHeader fd.data)
    revenueRow := years.map (displayCellStr fd.data fun m => m.revenue)
    ebitdaRow := years.map (displayCellStr fd.data fun m => m.ebitda)
    marginRow := years.map (displayCellStr fd.data fun m => m.margin)
    debtRow := years.map (displayCellStr fd.data fun m => m.debt)
    caption := "All values in " ++ fd.currency }

/-- Tab-join of one output line of `DataFrame.to_csv(sep='\t')`. -/
def tabJoin (cells : List String) : String :=
  String.intercalate "\t" cells

/-- One exported cell: a missing value becomes the empty string (`debt` is
mapped to `''` when building the frame; the other metrics become `NaN`/`None`
and are blanked by `fillna('')`). -/
def optCellStr : Option Rat → String
  | some q => pyFloatStr q
  | none => ""

/-- `format_for_excel_clipboard(metrics_list)`: the list of points becomes a
DataFrame with columns year/revenue/ebitda/margin/debt/type, `year` is made
the index, the frame is transposed (years become columns, the remaining five
columns become rows), missing values are blanked, and the result is
serialized by `to_csv(sep='\t')`.  The transposed frame's row index carries
no name, so the top-left header cell is empty; each line, the last included,
ends with a newline. -/
def format_for_excel_clipboard (ml : List FinancialMetrics) : String :=
  tabJoin ("" :: ml.map fun m => toString m.year) ++ "\n" ++
  tabJoin ("revenue" :: ml.map fun m => optCellStr m.revenue) ++ "\n" ++
  tabJoin ("ebitda" :: ml.map fun m => optCellStr m.ebitda) ++ "\n" ++
  tabJoin ("margin" :: ml.map fun m => optCellStr m.margin) ++ "\n" ++
  tabJoin ("debt" :: ml.map fun m => optCellStr m.debt) ++ "\n" ++
  tabJoin ("type" :: ml.map fun m => typeStr m.type) ++ "\n"

/-- A file in `data/temp`: its name and whether its bytes are actually
readable as a PDF (the content plays no role in any code path of
`handle_extraction`, which only tests existence). -/
structure TempFile where
  name : String
  readablePdf : Bool
deriving DecidableEq

/-- The file-system state the program manipulates: `data/temp` uploads,
`data/pdf` inputs keyed by company id, the ids of dispatched background
jobs, the log of uploads/calls made to the external capability, and the
`data/pkl` snapshot store (one pickled `Company` per id, in directory
enumeration order). -/
structure SysState where
  tempFiles : List TempFile
  pdfFiles : List String
  jobs : List String
  calls : List String
  snapshots : List (String × Company)
deriving DecidableEq

/-- `os.path.exists(f"data/pkl/{company_id}.pkl")`. -/
def snapshotExists (s : SysState) (id : String) : Bool :=
  s.snapshots.any fun p => p.1 == id

/-- Write `data/pkl/{c.id}.pkl`: replace an existing entry for the id or
append a fresh one. -/
def upsert : List (String × Company) → String → Company →
    List (String × Company)
  | [], id, c => [(id, c)]
  | (k, v) :: rest, id, c =>
    if k == id then (id, c) :: rest else (k, v) :: upsert rest id c

/-- `pickle.dump(company, f)` to `data/pkl/{company.id}.pkl`. -/
def saveSnapshot (s : SysState) (c : Company) : SysState :=
  { s with snapshots := upsert s.snapshots c.id c }

/-- `company(company_id)`: unpickle `data/pkl/{company_id}.pkl`; `none`
models the `FileNotFoundError` branch. -/
def company (s : SysState) (company_id : String) : Option Company :=
  (s.snapshots.find? fun p => p.1 == company_id).map (·.2)

/-- `get_company_list()`: iterate the pkl directory, unpickle each snapshot,
and append `(company.name.value, f"/company/{pkl_file.stem}")`. -/
def get_company_list (s : SysState) : List (String × String) :=
  s.snapshots.foldl
    (fun acc p => acc ++ [(p.2.name.value, "/company/" ++ p.1)]) []

/-- The `Div` returned by `extract_company_data_status`: its status text,
the URL its `hx_get` polls or loads next, and whether that request repeats
(`every 5s`) or fires once (`load`). -/
structure StatusView where
  message : String
  nextGet : String
  repeats : Bool
deriving DecidableEq

/-- The completion branch: "Extraction complete", one-shot load of the
company page. -/
def completeView (id : String) : StatusView :=
  ⟨"Extraction complete", "/company/" ++ id, false⟩

/-- The in-progress branch: "Extracting data...", poll again every 5 s. -/
def extractingView (id : String) : StatusView :=
  ⟨"Extracting data...", "/extract-company-data/" ++ id, true⟩

/-- `extract_company_data_status(company_id)`: purely an existence check on
the snapshot store. -/
def extract_company_data_status (s : SysState) (id : String) : StatusView :=
  if snapshotExists s id then completeView id else extractingView id

/-- The body of the threaded `extract_company_data(company_id)`: upload the
pdf (fails locally if absent: no external call, no state change), call the
external capability — `response` is the capability's JSON answer — validate
it against `CompanyBase`, and only on success pickle the company.  A
validation failure raises inside the worker thread: nothing is written and
no id is returned. -/
def extract_company_data (s : SysState) (id : String) (response : Json) :
    Option String × SysState :=
  if s.pdfFiles.contains id then
    let s1 := { s with calls := s.calls ++ [id] }
    match CompanyBase.parse? response with
    | some base => (some id, saveSnapshot s1 ⟨base, id⟩)
    | none => (none, s1)
  else (none, s)

/-- The `Div`s `handle_extraction` can return to the submitter. -/
inductive ExtractResponse where
  | errNoFile
  | errFileNotFound
  | statusView (v : StatusView)
deriving DecidableEq

/-- `handle_extraction(request)`: reject a missing/empty filename, reject a
filename with no file in `data/temp`, otherwise mint `freshId`, move the
file to `data/pdf/{freshId}.pdf`, dispatch the threaded extraction, and
answer with the status view.  The dispatched job itself runs later (see
`Op.runExtraction`). -/
def handle_extraction (s : SysState) (filename : Option String)
    (freshId : String) : ExtractResponse × SysState :=
  match filename with
  | none => (.errNoFile, s)
  | some fn =>
    if fn == "" then (.errNoFile, s)
    else if s.tempFiles.any (fun t => t.name == fn) then
      let s' : SysState :=
        { s with tempFiles := s.tempFiles.filter fun t => !(t.name == fn)
                 pdfFiles := s.pdfFiles ++ [freshId]
                 jobs := s.jobs ++ [freshId] }
      (.statusView (extract_company_data_status s' freshId), s')
    else (.errFileNotFound, s)

/-- `handle_file_select`: save the upload under `data/temp/{name}`,
overwriting any previous file of that name. -/
def handle_file_select (s : SysState) (f : Option TempFile) : SysState :=
  match f with
  | none => s
  | some t =>
    { s with tempFiles := (s.tempFiles.filter fun u => !(u.name == t.name))
        ++ [t] }

/-- The in-system operations: uploads, submissions, background extractions,
status queries, page loads, clipboard copies and listings. -/
inductive Op where
  | fileSelect (f : Option TempFile)
  | extractRequest (filename : Option String) (freshId : String)
  | runExtraction (id : String) (response : Json)
  | statusQuery (id : String)
  | companyPage (id : String)
  | copyField (id : String) (field : String)
  | listQuery

/-- State effect of each operation.  Status queries, page loads, clipboard
copies and listings only read. -/
def applyOp : Op → SysState → SysState
  | .fileSelect f, s => handle_file_select s f
  | .extractRequest fn fid, s => (handle_extraction s fn fid).2
  | .runExtraction id resp, s => (extract_company_data s id resp).2
  | .statusQuery _, s => s
  | .companyPage _, s => s
  | .copyField _ _, s => s
  | .listQuery, s => s

/-- Run a sequence of in-system operations. -/
def applyOps (ops : List Op) (s : SysState) : SysState :=
  ops.foldl (fun t op => applyOp op t) s

/-- The export example's point `(2022, revenue=50, ebitda=null, actual)`. -/
def pt2022 : FinancialMetrics := ⟨2022, some 50, none, none, none, .actual⟩

/-- `(2023, revenue=100, actual)`. -/
def pt2023a : FinancialMetrics := ⟨2023, some 100, none, none, none, .actual⟩

/-- `(2023, revenue=110, forecast)`. -/
def pt2023f : FinancialMetrics :=
  ⟨2023, some 110, none, none, none, .forecast⟩

/-- `(2024, revenue=120, forecast)`. -/
def pt2024f : FinancialMetrics :=
  ⟨2024, some 120, none, none, none, .forecast⟩

/-- The export example's `FinancialData` with currency `"USD m"`. -/
def usdFd : FinancialData := ⟨[], .high, [pt2022], "USD m"⟩

/-- A concrete company used by witnesses. -/
def sampleCompany : Company :=
  { name := ⟨[0], .high, "Acme"⟩
    description := ⟨[1], .medium, "a company"⟩
    strategy := ⟨[], .low, "grow"⟩
    business_model := ⟨[], .high, "sell gadgets"⟩
    market := ⟨[], .high, "EU industrial"⟩
    clients := ⟨[], .high, "mid-size firms"⟩
    products := ⟨[], .high, "gadgets"⟩
    top_management := ⟨[⟨[2], .high, "Jo Doe", "CEO", "20y experience"⟩], [2]⟩
    financials := ⟨⟨[3], .high, [pt2023a, pt2024f], "EUR m"⟩⟩
    id := "a" }

/-- A state holding one snapshot under id `"a"`. -/
def st1 : SysState := ⟨[], [], [], [], [("a", sampleCompany)]⟩

/-- A capability response whose `name` object lacks the required `quality`
enum (the rest of the response is beside the point: validation already
fails on the first field). -/
def rawMissingQuality : Json :=
  Json.obj [("name", Json.obj [("pages", Json.arr []),
    ("value", Json.str "Acme")])]

/-- A state in which the pdf for job `"id1"` is in place and the job is
dispatched. -/
def st0 : SysState := ⟨[], ["id1"], ["id1"], [], []⟩

/-- An uploaded temp file whose bytes are not readable as a PDF. -/
def badTemp : TempFile := ⟨"bad.pdf", false⟩

/-- A state whose only upload is the unreadable `bad.pdf`. -/
def st2 : SysState := ⟨[badTemp], [], [], [], []⟩

theorem find_upsert (l : List (String × Company)) (id : String)
    (c : Company) :
    (upsert l id c).find? (fun p => p.1 == id) = some (id, c) := by
  induction l with
  | nil => simp [upsert]
  | cons hd rest ih =>
    obtain ⟨k, v⟩ := hd
    by_cases hk : (k == id) = true
    · simp [upsert, hk]
    · simp only [upsert, Bool.not_eq_true] at hk ⊢
      rw [if_neg (by simp [hk])]
      simpa [List.find?, hk] using ih

theorem any_upsert_of_any (l : List (String × Company)) (id k : String)
    (c : Company) (h : (l.any fun p => p.1 == k) = true) :
    ((upsert l id c).any fun p => p.1 == k) = true := by
  induction l with
  | nil => simp at h
  | cons hd rest ih =>
    obtain ⟨k', v⟩ := hd
    simp only [List.any_cons, Bool.or_eq_true] at h
    by_cases hk : (k' == id) = true
    · have hkid : k' = id := eq_of_beq hk
      subst hkid
      rcases h with h | h
      · simp [upsert, List.any_cons, h]
      · simp [upsert, List.any_cons, h]
    · simp only [upsert]
      rw [if_neg hk]
      rcases h with h | h
      · simp [List.any_cons, h]
      · simp [List.any_cons, ih h]

theorem handle_extraction_snapshots (s : SysState) (fn : Option String)
    (fid : String) :
    ((handle_extraction s fn fid).2).snapshots = s.snapshots := by
  unfold handle_extraction
  cases fn with
  | none => rfl
  | some f =>
    by_cases h1 : (f == "") = true
    · simp [h1]
    · by_cases h2 : (s.tempFiles.any fun t => t.name == f) = true
      · simp [h1, h2]
      · simp [h1, h2]

theorem handle_file_select_snapshots (s : SysState) (f : Option TempFile) :
    (handle_file_select s f).snapshots = s.snapshots := by
  cases f <;> rfl

theorem applyOp_preserves_snapshot (op : Op) (s : SysState) (id : String)
    (h : snapshotExists s id = true) :
    snapshotExists (applyOp op s) id = true := by
  cases op with
  | fileSelect f =>
    unfold snapshotExists at h ⊢
    rw [applyOp, handle_file_select_snapshots]
    exact h
  | extractRequest fn fid =>
    unfold snapshotExists at h ⊢
    rw [applyOp, handle_extraction_snapshots]
    exact h
  | runExtraction jid resp =>
    unfold snapshotExists at h ⊢
    rw [applyOp]
    unfold extract_company_data
    by_cases hc : s.pdfFiles.contains jid
    · simp only [hc, if_true]
      cases hp : CompanyBase.parse? resp with
      | some base => simpa [saveSnapshot] using any_upsert_of_any _ _ _ _ h
      | none => exact h
    · simp only [hc, if_false]
      exact h
  | statusQuery _ => exact h
  | companyPage _ => exact h
  | copyField _ _ => exact h
  | listQuery => exact h

theorem applyOps_preserves_snapshot (ops : List Op) (s : SysState)
    (id : String) (h : snapshotExists s id = true) :
    snapshotExists (applyOps ops s) id = true := by
  induction ops generalizing s with
  | nil => exact h
  | cons op rest ih =>
    exact ih (applyOp op s) (applyOp_preserves_snapshot op s id h)

theorem snapshotExists_iff_mem (s : SysState) (id : String) :
    snapshotExists s id = true ↔ id ∈ s.snapshots.map Prod.fst := by
  simp [snapshotExists, List.any_eq_true, List.mem_map]

theorem extracting_ne_complete (id : String) :
    extractingView id ≠ completeView id := by
  intro h
  have hm : "Extracting data..." = "Extraction complete" :=
    congrArg StatusView.message h
  exact absurd hm (by decide)

theorem foldl_append_eq_map (l : List (String × Company))
    (acc : List (String × String)) :
    l.foldl (fun a p => a ++ [(p.2.name.value, "/company/" ++ p.1)]) acc =
      acc ++ l.map (fun p => (p.2.name.value, "/company/" ++ p.1)) := by
  induction l generalizing acc with
  | nil => simp
  | cons hd rest ih => simp [List.foldl_cons, ih]

theorem cellValue_eq_head (data : List FinancialMetrics)
    (f : FinancialMetrics → Option Rat) (y : Int) :
    cellValue data f y =
      (data.filterMap fun d => if d.year = y then f d else none).head? := by
  induction data with
  | nil => rfl
  | cons d rest ih =>
    by_cases hy : d.year = y
    · cases hf : f d with
      | some v =>
        have hp : (d.year == y && (f d).isSome) = true := by simp [hy, hf]
        simp [cellValue, List.find?, hp, hf, hy, List.filterMap_cons]
      | none =>
        have hp : (d.year == y && (f d).isSome) = false := by simp [hf]
        simpa [cellValue, List.find?, hp, hf, hy, List.filterMap_cons]
          using ih
    · have hp : (d.year == y && (f d).isSome) = false := by simp [hy]
      simpa [cellValue, List.find?, hp, hy, List.filterMap_cons] using ih

theorem isForecast_iff (d : FinancialMetrics) :
    isForecast d = true ↔ d.type = PointType.forecast := by
  cases h : d.type <;> simp [isForecast, typeStr, h]

/-- C1 (counterexample): for currency `"USD m"` and the single point
`(2022, revenue=50, ebitda=null, actual)`, the clipboard export is the
concrete tab-separated block below — and the string `"USD m"` (indeed any
currency annotation) appears nowhere in it: `format_for_excel_clipboard`
receives only the metric points, never the currency, so the claimed trailing
currency annotation does not exist. -/
theorem export_lacks_currency :
    format_for_excel_clipboard [pt2022] =
      "\t2022\nrevenue\t50.0\nebitda\t\nmargin\t\ndebt\t\ntype\tactual\n" ∧
    ¬ ("USD m".data <:+: (format_for_excel_clipboard [pt2022]).data) :=
  ⟨rfl, by decide⟩

/-- C1 (amended): the clipboard export of the example `FinancialData` is a
tab-separated, year-indexed block (years as columns, metrics as rows) whose
revenue row shows 50, whose ebitda/margin/debt cells are empty strings, and
which carries no currency annotation; the currency string is shown only by
the HTML display table's caption (`"All values in USD m"`), not by the
export. -/
theorem export_format_amended :
    format_for_excel_clipboard usdFd.data =
      "\t2022" ++ "\n" ++ "revenue\t50.0" ++ "\n" ++ "ebitda\t" ++ "\n" ++
      "margin\t" ++ "\n" ++ "debt\t" ++ "\n" ++ "type\tactual" ++ "\n" ∧
    optCellStr pt2022.revenue = "50.0" ∧
    optCellStr pt2022.ebitda = "" ∧
    usdFd.render.caption = "All values in USD m" :=
  ⟨rfl, rfl, rfl, rfl⟩

/-- C2: the status query answers with the completion view exactly when a
snapshot for the identifier is persisted in the store, answers with the
polling view in every other case (those two views are its only possible
answers), and mutates no state: it is purely an existence check against the
snapshot store. -/
theorem status_complete_iff_snapshot (s : SysState) (id : String) :
    (extract_company_data_status s id = completeView id ↔
      id ∈ s.snapshots.map Prod.fst) ∧
    (extract_company_data_status s id = completeView id ∨
      extract_company_data_status s id = extractingView id) ∧
    applyOp (Op.statusQuery id) s = s := by
  refine ⟨?_, ?_, rfl⟩
  · unfold extract_company_data_status
    by_cases h : snapshotExists s id = true
    · simp [h, (snapshotExists_iff_mem s id).mp h]
    · rw [if_neg h]
      simp only [Bool.not_eq_true] at h
      constructor
      · intro he
        exact absurd he (extracting_ne_complete id)
      · intro hm
        rw [(snapshotExists_iff_mem s id).mpr hm] at h
        cases h
  · unfold extract_company_data_status
    by_cases h : snapshotExists s id = true
    · exact Or.inl (by rw [if_pos h])
    · exact Or.inr (by rw [if_neg h])

/-- C3: saving a company under its identifier and then loading that
identifier yields the very same value — equal in every field, including the
base record as a whole, the metric points with their null markers, the
currency string, the pages ordering and the quality grade. -/
theorem save_load_roundtrip (c : Company) (s : SysState) :
    company (saveSnapshot s c) c.id = some c ∧
    (company (saveSnapshot s c) c.id).map Company.toCompanyBase =
      some c.toCompanyBase ∧
    (company (saveSnapshot s c) c.id).map
        (fun x => x.financials.financial_data.data) =
      some c.financials.financial_data.data ∧
    (company (saveSnapshot s c) c.id).map
        (fun x => x.financials.financial_data.currency) =
      some c.financials.financial_data.currency ∧
    (company (saveSnapshot s c) c.id).map (fun x => x.name.pages) =
      some c.name.pages ∧
    (company (saveSnapshot s c) c.id).map (fun x => x.name.quality) =
      some c.name.quality := by
  have h : company (saveSnapshot s c) c.id = some c := by
    unfold company saveSnapshot
    simp [find_upsert]
  exact ⟨h, by simp [h], by simp [h], by simp [h], by simp [h], by simp [h]⟩

/-- C4: for each metric and year, the displayed cell value is the first
non-null value of that metric among the points of that year in stored
order; on the example `(2023, revenue=100, actual)` then
`(2023, revenue=110, forecast)` the 2023 revenue cell shows 100 (rendered
`"100.0"` by `str`), not 110 and not any merge. -/
theorem display_first_match (data : List FinancialMetrics)
    (f : FinancialMetrics → Option Rat) (y : Int) :
    cellValue data f y =
      (data.filterMap fun d => if d.year = y then f d else none).head? ∧
    cellValue [pt2023a, pt2023f] (fun m => m.revenue) 2023 = some 100 ∧
    cellValue [pt2023a, pt2023f] (fun m => m.revenue) 2023 ≠ some 110 ∧
    displayCellStr [pt2023a, pt2023f] (fun m => m.revenue) 2023 = "100.0" ∧
    (FinancialData.render
        ⟨[], Quality.high, [pt2023a, pt2023f], "EUR"⟩).revenueRow =
      ["100.0"] :=
  ⟨cellValue_eq_head data f y, by decide, by decide, by decide, by decide⟩

/-- C5: the rendered table's year columns are the distinct stored years
sorted ascending; a year's header is marked forecast (`"E"`) iff some
stored point of that year is a forecast point; and both the year list and
the forecast marking are invariant under reordering the stored points. -/
theorem year_header_forecast_rule (data data' : List FinancialMetrics)
    (y : Int) (hperm : data.Perm data') :
    (y ∈ displayYears data ↔ ∃ d ∈ data, d.year = y) ∧
    (displayYears data).Sorted (· ≤ ·) ∧
    (displayYears data).Nodup ∧
    (yearIsForecast data y = true ↔
      ∃ d ∈ data, d.year = y ∧ d.type = PointType.forecast) ∧
    displayYears data' = displayYears data ∧
    yearIsForecast data' y = yearIsForecast data y := by
  refine ⟨?_, ?_, ?_, ?_, ?_, ?_⟩
  · rw [displayYears, (List.perm_insertionSort _ _).mem_iff]
    simp [List.mem_dedup, List.mem_map]
  · exact List.sorted_insertionSort _ _
  · exact (List.perm_insertionSort _ _).nodup_iff.mpr (List.nodup_dedup _)
  · simp only [yearIsForecast, List.any_eq_true, Bool.and_eq_true,
      isForecast_iff, beq_iff_eq]
    constructor
    · rintro ⟨d, hd, h1, h2⟩
      exact ⟨d, hd, h2, h1⟩
    · rintro ⟨d, hd, h1, h2⟩
      exact ⟨d, hd, h2, h1⟩
  · have h1 : (data'.map fun d => d.year).dedup.Perm
        (data.map fun d => d.year).dedup := ((hperm.symm).map _).dedup
    have h2 : (displayYears data').Perm (displayYears data) :=
      ((List.perm_insertionSort _ _).trans h1).trans
        (List.perm_insertionSort _ _).symm
    exact List.eq_of_perm_of_sorted h2 (List.sorted_insertionSort _ _)
      (List.sorted_insertionSort _ _)
  · rw [Bool.eq_iff_iff]
    simp only [yearIsForecast, List.any_eq_true]
    constructor
    · rintro ⟨d, hd, hp⟩
      exact ⟨d, hperm.mem_iff.mpr hd, hp⟩
    · rintro ⟨d, hd, hp⟩
      exact ⟨d, hperm.mem_iff.mp hd, hp⟩

/-- C5 witness: applied to the spec's example points
`(2023, revenue=100, actual)` and `(2024, revenue=120, forecast)` in both
orders: 2024 is marked `"2024E"`, 2023 is unmarked, and the rendering is
order-independent. -/
theorem year_header_forecast_rule_witness :
    ([pt2023a, pt2024f] : List FinancialMetrics).Perm [pt2024f, pt2023a] ∧
    displayYears [pt2024f, pt2023a] = displayYears [pt2023a, pt2024f] ∧
    yearIsForecast [pt2024f, pt2023a] 2024 =
      yearIsForecast [pt2023a, pt2024f] 2024 ∧
    yearHeader [pt2023a, pt2024f] 2024 = "2024E" ∧
    yearHeader [pt2023a, pt2024f] 2023 = "2023" ∧
    displayYears [pt2023a, pt2024f] = [2023, 2024] :=
  ⟨by decide,
    (year_header_forecast_rule [pt2023a, pt2024f] [pt2024f, pt2023a] 2024
      (by decide)).2.2.2.2.1,
    (year_header_forecast_rule [pt2023a, pt2024f] [pt2024f, pt2023a] 2024
      (by decide)).2.2.2.2.2,
    by decide, by decide, by decide⟩

/-- C6: a capability response that fails schema validation is rejected —
the background job returns no identifier and the snapshot store is left
exactly as it was for every identifier, so no snapshot is persisted for the
job. -/
theorem schema_violation_no_snapshot (s : SysState) (id : String)
    (raw : Json) (h : CompanyBase.parse? raw = none) :
    (extract_company_data s id raw).1 = none ∧
    ((extract_company_data s id raw).2).snapshots = s.snapshots := by
  unfold extract_company_data
  rw [h]
  by_cases hc : s.pdfFiles.contains id = true
  · rw [if_pos hc]
    exact ⟨rfl, rfl⟩
  · rw [if_neg hc]
    exact ⟨rfl, rfl⟩

/-- C6 witness: the response whose required `quality` enum is absent fails
validation, and running the job for it on a live state writes nothing. -/
theorem schema_violation_no_snapshot_witness :
    CompanyBase.parse? rawMissingQuality = none ∧
    (extract_company_data st0 "id1" rawMissingQuality).1 = none ∧
    ((extract_company_data st0 "id1" rawMissingQuality).2).snapshots =
      st0.snapshots :=
  ⟨rfl, schema_violation_no_snapshot st0 "id1" rawMissingQuality rfl⟩

/-- C7 (counterexample): a submission whose referenced document exists but
is not readable as a PDF is NOT rejected synchronously — the handler
answers with the polling status view (neither error response), mints the
identifier, moves the file and creates/dispatches the job, contradicting
the claim for the "unreadable" case (the handler checks only
`os.path.exists`, never readability). -/
theorem unreadable_document_not_rejected :
    badTemp.readablePdf = false ∧
    (handle_extraction st2 (some "bad.pdf") "id9").1 ≠
      ExtractResponse.errNoFile ∧
    (handle_extraction st2 (some "bad.pdf") "id9").1 ≠
      ExtractResponse.errFileNotFound ∧
    ((handle_extraction st2 (some "bad.pdf") "id9").2).jobs = ["id9"] ∧
    ((handle_extraction st2 (some "bad.pdf") "id9").2).pdfFiles = ["id9"] ∧
    (handle_extraction st2 (some "bad.pdf") "id9").2 ≠ st2 := by
  decide

/-- C7 (amended): a submission whose referenced document is MISSING is
rejected synchronously — the handler returns the not-found (resp. no-file)
error and the state is completely unchanged: no identifier is recorded, no
file moved, no job created or dispatched, and no call to the external
capability is made.  An existing but unreadable document is not caught
here. -/
theorem missing_document_fails_fast (s : SysState) (fn : String)
    (freshId : String) (h1 : fn ≠ "")
    (h2 : (s.tempFiles.any fun t => t.name == fn) = false) :
    handle_extraction s (some fn) freshId =
      (ExtractResponse.errFileNotFound, s) ∧
    handle_extraction s none freshId = (ExtractResponse.errNoFile, s) := by
  constructor
  · have hb : (fn == "") = false := by
      simpa using h1
    simp [handle_extraction, hb, h2]
  · rfl

/-- C7 witness: submitting the name of a file absent from `data/temp` (and
submitting no filename at all) is rejected with the state untouched. -/
theorem missing_document_fails_fast_witness :
    ("report.pdf" : String) ≠ "" ∧
    (st1.tempFiles.any fun t => t.name == "report.pdf") = false ∧
    handle_extraction st1 (some "report.pdf") "id7" =
      (ExtractResponse.errFileNotFound, st1) ∧
    handle_extraction st1 none "id7" = (ExtractResponse.errNoFile, st1) :=
  ⟨by decide, rfl,
    missing_document_fails_fast st1 "report.pdf" "id7" (by decide) rfl⟩

/-- C8: once the status query answers the completion view for an
identifier, it still answers it after any sequence of in-system operations:
no operation removes or invalidates an existing snapshot. -/
theorem status_monotonic (s : SysState) (id : String) (ops : List Op)
    (h : extract_company_data_status s id = completeView id) :
    extract_company_data_status (applyOps ops s) id = completeView id := by
  have hex : snapshotExists s id = true := by
    by_cases hb : snapshotExists s id = true
    · exact hb
    · rw [extract_company_data_status, if_neg hb] at h
      exact absurd h (extracting_ne_complete id)
  have hex2 := applyOps_preserves_snapshot ops s id hex
  rw [extract_company_data_status, if_pos hex2]

/-- C8 witness: a completed id stays complete across an upload, a new
submission, a (failing) background extraction, a status query and a
listing. -/
theorem status_monotonic_witness :
    extract_company_data_status st1 "a" = completeView "a" ∧
    extract_company_data_status
      (applyOps [Op.statusQuery "a", Op.fileSelect (some ⟨"r.pdf", true⟩),
        Op.extractRequest (some "r.pdf") "id2",
        Op.runExtraction "id2" rawMissingQuality, Op.listQuery] st1) "a" =
      completeView "a" :=
  ⟨rfl,
    status_monotonic st1 "a"
      [Op.statusQuery "a", Op.fileSelect (some ⟨"r.pdf", true⟩),
        Op.extractRequest (some "r.pdf") "id2",
        Op.runExtraction "id2" rawMissingQuality, Op.listQuery] rfl⟩

/-- C9 (counterexample): on a store holding one snapshot under identifier
`"a"`, the list operation pairs the display name with the link
`"/company/a"`, not with the opaque identifier string `"a"` itself. -/
theorem company_list_links_not_ids :
    get_company_list st1 = [("Acme", "/company/a")] ∧
    get_company_list st1 ≠ [("Acme", "a")] := by
  decide

/-- C9 (amended): the list operation returns, for every persisted record in
the underlying storage's enumeration order, the pair of its display name
and the link `"/company/" ++ identifier` (the identifier embedded in a URL
path, not the bare identifier string), one pair per snapshot. -/
theorem company_list_name_link_pairs (s : SysState) :
    get_company_list s =
      s.snapshots.map (fun p => (p.2.name.value, "/company/" ++ p.1)) ∧
    (get_company_list s).length = s.snapshots.length := by
  have h := foldl_append_eq_map s.snapshots []
  rw [get_company_list]
  simp only [List.nil_append] at h
  exact ⟨h, by rw [h, List.length_map]⟩

/-- C10: for an identifier with no persisted snapshot — whether never
submitted or whose background job already failed — the status query
answers the "Extracting data..." view that re-polls every 5 seconds; it
has no not-found and no failed answer, so such identifiers are
indistinguishable from in-flight jobs. -/
theorem absent_snapshot_reports_running (s : SysState) (id : String)
    (h : snapshotExists s id = false) :
    extract_company_data_status s id = extractingView id ∧
    (extract_company_data_status s id).message = "Extracting data..." ∧
    (extract_company_data_status s id).repeats = true := by
  have h1 : extract_company_data_status s id = extractingView id := by
    rw [extract_company_data_status, if_neg (by simp [h])]
  exact ⟨h1, by rw [h1]; rfl, by rw [h1]; rfl⟩

/-- C10 witness: after the job for `"id1"` failed schema validation, its
status still polls as running — exactly as for an identifier that never
existed. -/
theorem absent_snapshot_reports_running_witness :
    snapshotExists ((extract_company_data st0 "id1" rawMissingQuality).2)
      "id1" = false ∧
    extract_company_data_status
      ((extract_company_data st0 "id1" rawMissingQuality).2) "id1" =
      extractingView "id1" ∧
    extract_company_data_status st1 "never-submitted" =
      extractingView "never-submitted" :=
  ⟨rfl,
    (absent_snapshot_reports_running
      ((extract_company_data st0 "id1" rawMissingQuality).2) "id1" rfl).1,
    (absent_snapshot_reports_running st1 "never-submitted" rfl).1⟩
